import Mathlib

/-!
Verification of the company-registration backend (`src/server.js`).

Strings manipulated character-by-character are embedded as `List Char`;
JavaScript string methods (`trim`, `toUpperCase`, `toLowerCase`,
`replace(/\s+/g, ' ')`, `includes`) are modelled as Lean functions on
`List Char`, restricted to ASCII inputs (all counterexamples and
witnesses below are ASCII).  JSON objects whose field set matters
(`/submit-registration` payloads) are modelled as association lists with
JavaScript last-write-wins lookup semantics.  External collaborators
(company registry, Stripe, Brevo) appear only through their observable
results, passed in as parameters.
-/

/-- ASCII whitespace, the characters matched by the JavaScript regexp
class `\s` that can appear in ASCII input. -/
def isWs (c : Char) : Bool :=
  c = ' ' || c = '\t' || c = '\n' || c = '\r' || c = '\x0b' || c = '\x0c'

/-- JavaScript `String.prototype.trim` (ASCII fragment): drop leading and
trailing whitespace. -/
def trimEnds (s : List Char) : List Char :=
  ((s.dropWhile isWs).reverse.dropWhile isWs).reverse

/-- JavaScript `String.prototype.toUpperCase` (ASCII fragment). -/
def upperStr (s : List Char) : List Char :=
  s.map Char.toUpper

/-- JavaScript `String.prototype.toLowerCase` (ASCII fragment). -/
def lowerStr (s : List Char) : List Char :=
  s.map Char.toLower

/-- Auxiliary for `collapseWs`: the flag records whether the previous
character was whitespace (so a run contributes a single space). -/
def collapseWsAux : Bool → List Char → List Char
  | _, [] => []
  | prevWs, c :: rest =>
    if isWs c then
      if prevWs then collapseWsAux true rest
      else ' ' :: collapseWsAux true rest
    else c :: collapseWsAux false rest

/-- JavaScript `s.replace(/\s+/g, ' ')`: every maximal run of whitespace
becomes a single space. -/
def collapseWs (s : List Char) : List Char :=
  collapseWsAux false s

/-- JavaScript `hay.includes(needle)`: substring containment. -/
def strIncludes (hay needle : List Char) : Bool :=
  (List.range (hay.length + 1)).any fun i => needle.isPrefixOf (hay.drop i)

/-! ## Name availability checker (`POST /check-name`, server.js lines 27-69) -/

/-- server.js line 44: `companyName.trim().toUpperCase().replace(/\s+/g, ' ')`. -/
def normalizeQueryName (s : List Char) : List Char :=
  collapseWs (upperStr (trimEnds s))

/-- server.js line 47: `company.title.toUpperCase().replace(/\s+/g, ' ')` —
note: no `trim()` is applied to candidate titles. -/
def normalizeTitle (s : List Char) : List Char :=
  collapseWs (upperStr s)

/-- The specification's normalization of a name, as §4.1 step 2 words it
for BOTH sides of the comparison: trim, uppercase, collapse internal
whitespace runs.  Kept separate from `normalizeTitle` so the two can be
compared. -/
def specNormalize (s : List Char) : List Char :=
  collapseWs (upperStr (trimEnds s))

/-- server.js lines 46-51: some registry candidate's normalized title equals
the normalized query, or the query with suffix " LIMITED" or " LTD". -/
def checkNameCollision (companyName : List Char) (titles : List (List Char)) : Bool :=
  let n := normalizeQueryName companyName
  titles.any fun t =>
    let ct := normalizeTitle t
    ct == n || ct == n ++ (" LIMITED").toList || ct == n ++ (" LTD").toList

/-- The `{available, suggestions}` body of a `/check-name` response. -/
structure AvailabilityResult where
  available : Bool
  suggestions : List (List Char)
deriving DecidableEq

/-- server.js lines 54-60: the five rename suggestions built from the
original, non-normalized `companyName`. -/
def suggestionList (companyName : List Char) : List (List Char) :=
  [companyName ++ (" UK").toList,
   companyName ++ (" Solutions").toList,
   companyName ++ (" Group").toList,
   companyName ++ (" Holdings").toList,
   companyName ++ (" Services").toList]

/-- server.js lines 53-64: the response of `/check-name` given the titles
returned by the registry. -/
def checkNameResponse (companyName : List Char) (titles : List (List Char)) :
    AvailabilityResult :=
  if checkNameCollision companyName titles then
    { available := false, suggestions := suggestionList companyName }
  else
    { available := true, suggestions := [] }

/-! ## Theorems for claims C1-C3 -/

/-- C1, counterexample: the claim reads collision as matching on the
spec-normalized (trimmed) candidate title.  For query "ACME" and a single
registry candidate titled " ACME" (leading space), the spec-normalized
title equals the normalized query, yet the code declares no collision,
because server.js line 47 never trims the candidate title. -/
theorem checkName_specNormalized_iff_fails :
    ¬ (checkNameCollision (("ACME").toList) [(" ACME").toList] = true ↔
        ∃ t ∈ [(" ACME").toList],
          specNormalize t = normalizeQueryName (("ACME").toList) ∨
          specNormalize t = normalizeQueryName (("ACME").toList) ++ (" LIMITED").toList ∨
          specNormalize t = normalizeQueryName (("ACME").toList) ++ (" LTD").toList) := by
  decide

/-- C1, amended: a collision is declared iff some candidate's title,
uppercased with whitespace runs collapsed but NOT trimmed
(`normalizeTitle`), equals the normalized query name, or equals it with
suffix " LIMITED" or " LTD" appended. -/
theorem checkName_collision_iff (companyName : List Char) (titles : List (List Char)) :
    checkNameCollision companyName titles = true ↔
      ∃ t ∈ titles,
        normalizeTitle t = normalizeQueryName companyName ∨
        normalizeTitle t = normalizeQueryName companyName ++ (" LIMITED").toList ∨
        normalizeTitle t = normalizeQueryName companyName ++ (" LTD").toList := by
  simp [checkNameCollision, List.any_eq_true, or_assoc]

/-- C2: when a collision is found the response is `available = false` with
exactly the five suggestions built by appending " UK", " Solutions",
" Group", " Holdings", " Services" to the original input name, in that
order; with no collision the response is `available = true` with no
suggestions; hence suggestions are non-empty iff `available` is false. -/
theorem checkName_response_shape (companyName : List Char) (titles : List (List Char)) :
    ((checkNameResponse companyName titles).available
        = !(checkNameCollision companyName titles)) ∧
    ((checkNameResponse companyName titles).suggestions
        = if checkNameCollision companyName titles then
            [companyName ++ (" UK").toList,
             companyName ++ (" Solutions").toList,
             companyName ++ (" Group").toList,
             companyName ++ (" Holdings").toList,
             companyName ++ (" Services").toList]
          else []) ∧
    ((checkNameResponse companyName titles).suggestions.length
        = if checkNameCollision companyName titles then 5 else 0) ∧
    ((checkNameResponse companyName titles).suggestions ≠ [] ↔
        (checkNameResponse companyName titles).available = false) := by
  by_cases h : checkNameCollision companyName titles <;>
    simp [checkNameResponse, h, suggestionList]

/-- C3, counterexample: the candidate title " ACME" (leading space) is not
normalized the same way as a query would be: the query pipeline trims,
the title pipeline (server.js line 47) does not. -/
theorem normalizeTitle_ne_query_pipeline :
    normalizeTitle ((" ACME").toList) ≠ normalizeQueryName ((" ACME").toList) := by
  decide

/-- C3, amended: the query name is normalized by trim, uppercase and
whitespace collapse, while each candidate title is only uppercased and
whitespace-collapsed (no trim); the two normalizations agree exactly on
titles that carry no leading or trailing whitespace. -/
theorem normalizeTitle_eq_of_trimmed (t : List Char) (h : trimEnds t = t) :
    normalizeTitle t = normalizeQueryName t := by
  unfold normalizeTitle normalizeQueryName
  rw [h]

/-- Witness for `normalizeTitle_eq_of_trimmed` at the already-trimmed
title "ACME". -/
theorem normalizeTitle_eq_of_trimmed_witness :
    normalizeTitle (("ACME").toList) = normalizeQueryName (("ACME").toList) :=
  normalizeTitle_eq_of_trimmed (("ACME").toList) (by decide)

/-! ## SIC code search (`GET /api/sic-codes/search`, server.js lines 157-175) -/

/-- Modelled from the spec: the catalog file `sic-codes.json` (loaded at
server.js line 158) is not among the sources, and §3 constrains an entry
only to `{code: string, description: string}` in a static, immutable
catalog — so an entry is an arbitrary pair of strings and theorems
quantify over the catalog. -/
structure SicCode where
  code : List Char
  description : List Char
deriving DecidableEq

/-- server.js lines 160-174: the result list of the SIC search for query
parameter `q` (`none` models an absent parameter).  Line 161 lowercases
the query once (`req.query.q?.toLowerCase() || ''`); line 163 guards
`!query || query.length < 2`; lines 167-172 filter the catalog on
`sic.code.includes(query)` (raw code against the LOWERCASED query) or
`sic.description.toLowerCase().includes(query)` and keep the first 15. -/
def sicSearch (catalog : List SicCode) (q : Option (List Char)) : List SicCode :=
  let query := match q with
    | none => []
    | some s => lowerStr s
  if query.isEmpty || query.length < 2 then []
  else
    (catalog.filter fun sic =>
        strIncludes sic.code query || strIncludes (lowerStr sic.description) query).take 15

/-- The length of the raw query string, 0 when the parameter is absent
(`lowerStr` preserves length, so this is also the processed query's length). -/
def sicQueryLen (q : Option (List Char)) : Nat :=
  match q with
  | none => 0
  | some s => s.length

/-! ## Theorems for claims C7-C8 -/

/-- C7, counterexample: the claim says an entry is included when its CODE
contains the query as a substring.  With catalog entry `{code := "AB",
description := "zzz"}` and query "AB", the code does contain the query,
yet the endpoint returns nothing: server.js line 169 compares the raw
code against the LOWERCASED query "ab". -/
theorem sicSearch_rawCode_fails :
    strIncludes (("AB").toList) (("AB").toList) = true ∧
    sicSearch [{ code := ("AB").toList, description := ("zzz").toList }]
        (some (("AB").toList)) = [] := by
  decide

/-- C7, amended: for a query that passes the length guard, the result is
exactly the catalog entries whose code contains the CASE-FOLDED query as
a substring, or whose case-folded description contains the case-folded
query, truncated to the first 15 in catalog order. -/
theorem sicSearch_filter_shape (catalog : List SicCode) (q : List Char)
    (h : 2 ≤ q.length) :
    sicSearch catalog (some q) =
      (catalog.filter fun sic =>
          strIncludes sic.code (lowerStr q) ||
          strIncludes (lowerStr sic.description) (lowerStr q)).take 15 := by
  have hlen : (lowerStr q).length = q.length := List.length_map _ _
  have hcond : ((lowerStr q).isEmpty || decide ((lowerStr q).length < 2)) = false := by
    simp [List.isEmpty_iff, hlen]
    constructor
    · intro hq
      rw [hq] at hlen
      simp at hlen
      omega
    · omega
  simp only [sicSearch]
  rw [if_neg]
  simp [hcond]

/-- Witness for `sicSearch_filter_shape` at query "office" over a
two-entry catalog. -/
theorem sicSearch_filter_shape_witness :
    sicSearch
        [{ code := ("82110").toList, description := ("Combined office administrative service activities").toList },
         { code := ("01110").toList, description := ("Growing of cereals").toList }]
        (some (("OFFice").toList)) =
      (([{ code := ("82110").toList, description := ("Combined office administrative service activities").toList },
         { code := ("01110").toList, description := ("Growing of cereals").toList }] : List SicCode).filter fun sic =>
          strIncludes sic.code (lowerStr (("OFFice").toList)) ||
          strIncludes (lowerStr sic.description) (lowerStr (("OFFice").toList))).take 15 :=
  sicSearch_filter_shape _ (("OFFice").toList) (by decide)

/-- C8, counterexample: the claim says a query whose TRIMMED, case-folded
form has fewer than 2 characters yields an empty list without scanning
the catalog.  The query "  " (two spaces) trims to "" (length 0), yet
server.js never trims: the guard sees length 2, the catalog IS scanned,
and a description containing two consecutive spaces matches. -/
theorem sicSearch_trimmed_guard_fails :
    (trimEnds (lowerStr (("  ").toList))).length < 2 ∧
    sicSearch [{ code := ("01").toList, description := ("a  b").toList }]
        (some (("  ").toList)) ≠ [] := by
  decide

/-- C8, amended: for a query whose (untrimmed) form has fewer than 2
characters — including an absent parameter — the endpoint returns an
empty list whatever the catalog is (the catalog is never consulted). -/
theorem sicSearch_short_query (catalog : List SicCode) (q : Option (List Char))
    (h : sicQueryLen q < 2) :
    sicSearch catalog q = [] := by
  cases q with
  | none => rfl
  | some s =>
    have hl : (lowerStr s).length < 2 := by
      simpa [lowerStr] using h
    simp [sicSearch, hl]

/-- Witness for `sicSearch_short_query`: an absent query parameter over a
non-empty catalog yields the empty list. -/
theorem sicSearch_short_query_witness :
    sicSearch [{ code := ("01110").toList, description := ("Growing of cereals").toList }]
        none = [] :=
  sicSearch_short_query _ none (by decide)

/-! ## Payment intent (`POST /create-payment-intent`, server.js lines 71-88) -/

/-- A JSON object modelled as an association list of string fields, with
JavaScript object-literal semantics: a later binding for the same key
overrides an earlier one (`jsGet` takes the last binding). -/
abbrev JsObj := List (String × String)

/-- Property lookup with last-write-wins semantics. -/
def jsGet (o : JsObj) (k : String) : Option String :=
  match o with
  | [] => none
  | (k2, v) :: rest =>
    match jsGet rest k with
    | some r => some r
    | none => if k2 = k then some v else none

/-- JavaScript `{...o, k: v}`: spread the object, then set `k`. -/
def jsSet (o : JsObj) (k v : String) : JsObj :=
  o ++ [(k, v)]

/-- The parameters passed to `stripe.paymentIntents.create`. -/
structure PaymentIntentParams where
  amount : Nat
  currency : String
  automaticPaymentMethods : Bool
deriving DecidableEq

/-- server.js lines 72-79: the intent parameters built by
`/create-payment-intent`.  The request body is taken as an argument to
make its (non-)use explicit: the handler never reads `req.body`. -/
def createPaymentIntentParams (_body : JsObj) : PaymentIntentParams :=
  { amount := 11400, currency := "gbp", automaticPaymentMethods := true }

/-- C6: any two create-payment-intent requests, whatever their bodies,
produce identical intent parameters, with amount fixed at 11400 minor
units and currency fixed at GBP — client input never influences them. -/
theorem paymentIntent_noninterference (b1 b2 : JsObj) :
    createPaymentIntentParams b1 = createPaymentIntentParams b2 ∧
    (createPaymentIntentParams b1).amount = 11400 ∧
    (createPaymentIntentParams b1).currency = "gbp" :=
  ⟨rfl, rfl, rfl⟩

/-! ## Stripe webhook (`POST /stripe-webhook`, server.js lines 201-218) -/

/-- A parsed Stripe event: its `type` and the `amount` (in pence) of
`event.data.object`. -/
structure StripeEvent where
  type : String
  amount : Nat
deriving DecidableEq

/-- What the webhook handler produces, observably: the HTTP status, the
payment-confirmation log entries written (the amounts logged at
server.js line 214), and whether `{received: true}` was sent. -/
structure WebhookOutcome where
  status : Nat
  paymentLogs : List Nat
  acknowledged : Bool
deriving DecidableEq

/-- server.js lines 201-218.  `stripe.webhooks.constructEvent` is an
external library call: its result is the argument, `Except.error` when
signature verification throws, `Except.ok` with the parsed event
otherwise.  On error the handler returns 400 immediately (line 209); on
success it logs the settled amount when the type is
`payment_intent.succeeded` and acknowledges. -/
def stripeWebhookHandler (verified : Except String StripeEvent) : WebhookOutcome :=
  match verified with
  | Except.error _ => { status := 400, paymentLogs := [], acknowledged := false }
  | Except.ok e =>
    if e.type = "payment_intent.succeeded" then
      { status := 200, paymentLogs := [e.amount], acknowledged := true }
    else
      { status := 200, paymentLogs := [], acknowledged := true }

/-- C4: whenever signature verification fails — whatever the error — the
handler responds 400, writes no payment-confirmation log entry, and does
not acknowledge the event: the payload is never processed. -/
theorem webhook_badSignature_rejected (msg : String) :
    stripeWebhookHandler (Except.error msg) =
      { status := 400, paymentLogs := [], acknowledged := false } :=
  rfl

/-! ## Registration recorder (`POST /submit-registration`, server.js lines 178-197) -/

/-- server.js lines 182-185: `{...data, timestamp: new Date().toISOString()}`.
`now` stands for the server-generated timestamp string. -/
def mkRegistration (data : JsObj) (now : String) : JsObj :=
  jsSet data "timestamp" now

/-- What `/submit-registration` produces, observably: the record log
after the request (one `JsObj` per appended line of
`registrations.json`) and the HTTP status of the response. -/
structure SubmitOutcome where
  log : List JsObj
  status : Nat

/-- server.js lines 178-197: append the timestamped record to the log
(line 187), then attempt the notification email; `emailOk` is the
outcome of the external `sendSubmissionEmail` call.  A failed dispatch
is caught at line 193 and answered with 500 — after the append, which is
never rolled back. -/
def submitRegistration (log : List JsObj) (data : JsObj) (now : String)
    (emailOk : Bool) : SubmitOutcome :=
  let registration := mkRegistration data now
  let newLog := log ++ [registration]
  if emailOk then
    { log := newLog, status := 200 }
  else
    { log := newLog, status := 500 }

/-- C5: the timestamped record is appended to the log whatever the
notification outcome is (so the append precedes, and is independent of,
dispatch); when dispatch fails the handler still reports 500 to the
caller, yet the record remains in the log. -/
theorem submit_persists_before_notify (log : List JsObj) (data : JsObj) (now : String) :
    (∀ emailOk : Bool,
        (submitRegistration log data now emailOk).log = log ++ [mkRegistration data now]) ∧
    (submitRegistration log data now false).status = 500 ∧
    mkRegistration data now ∈ (submitRegistration log data now false).log := by
  refine ⟨fun emailOk => ?_, rfl, ?_⟩
  · cases emailOk <;> rfl
  · simp [submitRegistration]

/-- C10: the persisted record's `timestamp` field is always the
server-generated time `now`; any client-supplied `timestamp` binding in
the payload is overridden by the spread-then-assign object literal and
never survives lookup. -/
theorem registration_timestamp_server_wins (data : JsObj) (now : String) :
    jsGet (mkRegistration data now) "timestamp" = some now := by
  induction data with
  | nil => simp [mkRegistration, jsSet, jsGet]
  | cons p rest ih =>
    cases p with
    | mk k2 v =>
      simp [mkRegistration, jsSet, jsGet] at ih ⊢
      rw [ih]

/-! ## Notification email (`sendSubmissionEmail`, server.js lines 90-129) -/

/-- The registration fields read by the email template, each `Option`:
`none` models a field absent from the payload.  For `directors`,
`shareholders` and `pscs` the `String` is the `JSON.stringify` image of
the submitted value. -/
structure RegFields where
  companyName : Option String
  companyType : Option String
  sic_codes : Option String
  address_line1 : Option String
  address_line2 : Option String
  city : Option String
  county : Option String
  postcode : Option String
  country : Option String
  directors : Option String
  shareholders : Option String
  total_share_capital : Option String
  pscs : Option String
  contact_email : Option String
  email : Option String
  contact_phone : Option String
  articles_type : Option String
  payment_id : Option String
deriving DecidableEq

/-- JavaScript `v || d` for a string-or-absent value: an absent or empty
string falls back to the default `d`. -/
def jsFallback (v : Option String) (d : String) : String :=
  match v with
  | none => d
  | some s => if s = "" then d else s

/-- JavaScript template interpolation of a possibly-absent value:
`undefined` renders as the literal "undefined". -/
def jsInterp (v : Option String) : String :=
  match v with
  | none => "undefined"
  | some s => s

/-- JavaScript `v ? JSON.stringify(v, null, 2) : d` for the
object-valued fields (a present object is truthy). -/
def jsStringifyOr (v : Option String) (d : String) : String :=
  match v with
  | none => d
  | some s => s

/-- server.js line 96: `${data.companyName}`. -/
def renderCompanyName (d : RegFields) : String := jsInterp d.companyName

/-- server.js line 97: `${data.companyType || 'Private company limited by shares'}`. -/
def renderCompanyType (d : RegFields) : String :=
  jsFallback d.companyType "Private company limited by shares"

/-- server.js line 98: `${data.sic_codes || 'N/A'}`. -/
def renderSicCodes (d : RegFields) : String := jsFallback d.sic_codes "N/A"

/-- server.js line 101: `${data.address_line1 || 'N/A'}`. -/
def renderAddressLine1 (d : RegFields) : String := jsFallback d.address_line1 "N/A"

/-- server.js line 102: `${data.address_line2 || ''}` — the fallback is
the EMPTY string, not "N/A". -/
def renderAddressLine2 (d : RegFields) : String := jsFallback d.address_line2 ""

/-- server.js line 103: `${data.city || 'N/A'}`. -/
def renderCity (d : RegFields) : String := jsFallback d.city "N/A"

/-- server.js line 103: `${data.county || ''}` — empty fallback. -/
def renderCounty (d : RegFields) : String := jsFallback d.county ""

/-- server.js line 104: `${data.postcode || 'N/A'}`. -/
def renderPostcode (d : RegFields) : String := jsFallback d.postcode "N/A"

/-- server.js line 105: `${data.country || 'United Kingdom'}`. -/
def renderCountry (d : RegFields) : String := jsFallback d.country "United Kingdom"

/-- server.js line 108: `${data.directors ? JSON.stringify(data.directors, null, 2) : 'N/A'}`. -/
def renderDirectors (d : RegFields) : String := jsStringifyOr d.directors "N/A"

/-- server.js line 111: shareholders, same pattern as directors. -/
def renderShareholders (d : RegFields) : String := jsStringifyOr d.shareholders "N/A"

/-- server.js line 112: `${data.total_share_capital || 'N/A'}`. -/
def renderShareCapital (d : RegFields) : String :=
  jsFallback d.total_share_capital "N/A"

/-- server.js line 115: PSCs, same pattern as directors. -/
def renderPscs (d : RegFields) : String := jsStringifyOr d.pscs "N/A"

/-- server.js line 118: `${data.contact_email || data.email}` — the
fallback is ANOTHER payload field, itself interpolated raw. -/
def renderContactEmail (d : RegFields) : String :=
  jsFallback d.contact_email (jsInterp d.email)

/-- server.js line 119: `${data.contact_phone || 'N/A'}`. -/
def renderContactPhone (d : RegFields) : String := jsFallback d.contact_phone "N/A"

/-- server.js line 122: `${data.articles_type || 'Model Articles'}`. -/
def renderArticles (d : RegFields) : String := jsFallback d.articles_type "Model Articles"

/-- server.js line 126: `${data.payment_id || 'N/A'}`. -/
def renderPaymentId (d : RegFields) : String := jsFallback d.payment_id "N/A"

/-- server.js lines 91-129: the plaintext body of the notification
email, assembled from the per-field renderings; `now` is the
`Submitted at` timestamp. -/
def emailContent (d : RegFields) (now : String) : String :=
  "NEW UK COMPANY REGISTRATION\n===========================\n\n" ++
  "COMPANY DETAILS:\n- Company Name: " ++ renderCompanyName d ++
  "\n- Company Type: " ++ renderCompanyType d ++
  "\n- SIC Codes: " ++ renderSicCodes d ++
  "\n\nREGISTERED OFFICE ADDRESS:\n" ++ renderAddressLine1 d ++
  "\n" ++ renderAddressLine2 d ++
  "\n" ++ renderCity d ++ ", " ++ renderCounty d ++
  "\n" ++ renderPostcode d ++
  "\n" ++ renderCountry d ++
  "\n\nDIRECTORS:\n" ++ renderDirectors d ++
  "\n\nSHAREHOLDERS:\n" ++ renderShareholders d ++
  "\nTotal Share Capital: " ++ renderShareCapital d ++
  "\n\nPERSONS WITH SIGNIFICANT CONTROL (PSC):\n" ++ renderPscs d ++
  "\n\nCONTACT INFORMATION:\n- Email: " ++ renderContactEmail d ++
  "\n- Phone: " ++ renderContactPhone d ++
  "\n\nARTICLES OF ASSOCIATION:\n" ++ renderArticles d ++
  "\n\nPAYMENT:\n- Amount: £114.00\n- Payment ID: " ++ renderPaymentId d ++
  "\n\nSubmitted at: " ++ now

/-- A payload with every optional field absent. -/
def regAllAbsent : RegFields :=
  { companyName := none, companyType := none, sic_codes := none,
    address_line1 := none, address_line2 := none, city := none,
    county := none, postcode := none, country := none, directors := none,
    shareholders := none, total_share_capital := none, pscs := none,
    contact_email := none, email := none, contact_phone := none,
    articles_type := none, payment_id := none }

/-- C9, counterexample: `address_line2` is missing from the payload, yet
it is rendered as the empty string, not as the literal "N/A" — the
claim's "every missing optional field renders as N/A" fails at
server.js line 102. -/
theorem email_missing_field_not_na :
    regAllAbsent.address_line2 = none ∧
    renderAddressLine2 regAllAbsent ≠ "N/A" := by
  decide

/-- C9, amended: a missing field keeps the template shape but the
placeholder depends on the field: `sic_codes`, `address_line1`, `city`,
`postcode`, `directors`, `shareholders`, `total_share_capital`, `pscs`,
`contact_phone` and `payment_id` render as "N/A"; `address_line2` and
`county` render as the empty string; `companyType`, `country` and
`articles_type` render as their fixed defaults; a missing
`contact_email` falls back to the interpolation of the `email` field. -/
theorem email_missing_field_placeholders (d : RegFields) :
    renderSicCodes { d with sic_codes := none } = "N/A" ∧
    renderAddressLine1 { d with address_line1 := none } = "N/A" ∧
    renderCity { d with city := none } = "N/A" ∧
    renderPostcode { d with postcode := none } = "N/A" ∧
    renderDirectors { d with directors := none } = "N/A" ∧
    renderShareholders { d with shareholders := none } = "N/A" ∧
    renderShareCapital { d with total_share_capital := none } = "N/A" ∧
    renderPscs { d with pscs := none } = "N/A" ∧
    renderContactPhone { d with contact_phone := none } = "N/A" ∧
    renderPaymentId { d with payment_id := none } = "N/A" ∧
    renderAddressLine2 { d with address_line2 := none } = "" ∧
    renderCounty { d with county := none } = "" ∧
    renderCompanyType { d with companyType := none } = "Private company limited by shares" ∧
    renderCountry { d with country := none } = "United Kingdom" ∧
    renderArticles { d with articles_type := none } = "Model Articles" ∧
    renderContactEmail { d with contact_email := none } = jsInterp d.email := by
  refine ⟨rfl, rfl, rfl, rfl, rfl, rfl, rfl, rfl, rfl, rfl, rfl, rfl, rfl, rfl, rfl, rfl⟩
